import Mathlib

/-!
Verification development for the OC-WISE norm-compilation backend
(`backend.py`).  The Python source generates Cypher queries from declarative
norm definitions; here the query-generating functions are shallowly embedded
as Lean functions (dictionaries become association lists / structures with
`Option` fields, Python `dict[key]` access becomes an `Except` raising the
missing key, f-strings become string concatenation with `\x7b`/`\x7d` for
literal braces), and the fixed query templates that the code emits are given
an evaluation semantics on an explicit graph/subject model so that the
compliance verdicts they compute can be reasoned about.
-/

namespace OCWise

/-! ## Values (the scalar JSON/Cypher values that appear in parameter maps) -/

/-- A scalar value as it appears in norm parameter bags and query parameter
maps (Python/JSON values; `null` is Python `None` / Cypher `NULL`). -/
inductive Value where
  | str (s : String)
  | int (n : Int)
  | bool (b : Bool)
  | null
deriving DecidableEq, Repr

/-- Python truthiness of a value (`if not value` tests in the source). -/
def Value.truthy : Value → Bool
  | .str s => s != ""
  | .int n => n != 0
  | .bool b => b
  | .null => false

/-- Truthiness of an optional value (`params.get(k)` may return `None`). -/
def optTruthy : Option Value → Bool
  | some v => v.truthy
  | none => false

/-- Truthiness of an optional string (Python: missing key or empty string is
falsy). -/
def optStrTruthy : Option String → Bool
  | some s => s ≠ ""
  | none => false

/-- Python `d[k]` on a field modelled as `Option`: raises `KeyError k`
(modelled as `Except.error k`) when the key is absent. -/
def pyGet (o : Option α) (key : String) : Except String α :=
  match o with
  | some v => .ok v
  | none => .error key

/-- Python `repr` of a bool, as interpolated by an f-string (`True`/`False`). -/
def pyBoolRepr : Bool → String
  | true => "True"
  | false => "False"

/-! ## Configuration (`CONFIG` dict, lines 18-42, and `dict.update`) -/

/-- A configuration is a Python dict from string keys to string values
(only string-valued keys are ever read by the query generators). -/
abbrev Config := List (String × String)

/-- The module-level `CONFIG` dictionary (backend.py lines 18-42; the three
Neo4j connection entries take their documented defaults and are never read
by any query generator). -/
def CONFIG : Config :=
  [("event_node_label", "Event"),
   ("entity_node_label", "Entity"),
   ("df_rel_name", "DF"),
   ("corr_rel_name", "CORR"),
   ("df_entity_rel_name", "DF_ENTITY"),
   ("timestamp_property", "time"),
   ("entity_filter_property", "type"),
   ("activity_property", "type"),
   ("diagnostic_node_label", "Diagnostic"),
   ("compliance_rel_name", "COMPLIES_WITH"),
   ("diagnostic_relation_property", "related_id"),
   ("neo4j_uri", "bolt://localhost:7687"),
   ("neo4j_user", "neo4j"),
   ("neo4j_password", "12345678"),
   ("analysis_run_node_label", "AnalysisRun"),
   ("generated_in_rel_name", "GENERATED_IN"),
   ("process_norm_node_label", "ProcessNorm"),
   ("defined_in_rel_name", "DEFINED_IN"),
   ("aggregation_result_node_label", "AggregationResult"),
   ("has_aggregate_rel_name", "HAS_AGGREGATE"),
   ("aggregation_property_node_label", "AggregationProperty"),
   ("defines_aggregation_by_rel_name", "DEFINES_AGGREGATION_BY"),
   ("aggregated_by_rel_name", "AGGREGATED_BY")]

/-- `config[k]` where, in this development, the key is always present
(the sentinel mirrors the `KeyError` message a missing key would raise). -/
def cfget (c : Config) (k : String) : String :=
  (c.lookup k).getD ("KeyError: " ++ k)

/-- `config.get(k, d)` — lookup with a default. -/
def cfgetD (c : Config) (k d : String) : String :=
  (c.lookup k).getD d

/-- Python `dict.update`: set each key of `u` in `c` (replacing an existing
binding, appending a fresh one), left to right. -/
def cfgSet (c : Config) (k v : String) : Config :=
  if c.any (fun e => e.1 = k) then
    c.map (fun e => if e.1 = k then (k, v) else e)
  else
    c ++ [(k, v)]

/-- `config.update(json_config)` (backend.py line 639). -/
def cfgUpdate (c u : Config) : Config :=
  u.foldl (fun acc e => cfgSet acc e.1 e.2) c

/-! ## Execution filters (`ExecutionFilter` dicts) -/

/-- One element of a norm's `execution_filters` list, a Python dict whose
keys are modelled as `Option` fields (absent key = `none`). -/
structure FilterData where
  property_name : Option String := none
  property_operator : Option String := none
  property_value : Option Value := none
  property_value_end : Option Value := none
  property_data_type : Option String := none
  attributeStorage : Option String := none
deriving DecidableEq, Repr

/-- The string/number operator map (backend.py lines 223, 258, 543). -/
def op_map_general : String → Option String
  | "==" => some "="
  | "!=" => some "<>"
  | ">" => some ">"
  | "<" => some "<"
  | ">=" => some ">="
  | "<=" => some "<="
  | "in" => some "IN"
  | "not in" => some "NOT IN"
  | _ => none

/-- `ProcessNorm._build_single_filter_expression` (backend.py lines 201-229).
Returns the Cypher condition text and its parameter bindings; Python
`filter_data[...]` accesses that can raise `KeyError` are `Except.error`. -/
def ProcessNorm.build_single_filter_expression
    (node_alias : String) (filter_data : FilterData) (pfx : String) :
    Except String (String × List (String × Value)) := do
  let prop_name ← pyGet filter_data.property_name "property_name"
  let operator ← pyGet filter_data.property_operator "property_operator"
  let value ← pyGet filter_data.property_value "property_value"
  let data_type := filter_data.property_data_type.getD "string"
  let prop_accessor := node_alias ++ ".`" ++ prop_name ++ "`"
  if data_type = "datetime" then
    if operator = "between" then do
      let val_end ← pyGet filter_data.property_value_end "property_value_end"
      let start_param := pfx ++ "_start"
      let end_param := pfx ++ "_end"
      return ("(" ++ prop_accessor ++ " >= datetime($" ++ start_param ++ ") AND "
                ++ prop_accessor ++ " <= datetime($" ++ end_param ++ "))",
              [(start_param, value), (end_param, val_end)])
    else if operator = "before" then
      return ("(" ++ prop_accessor ++ " < datetime($" ++ pfx ++ "))", [(pfx, value)])
    else if operator = "after" then
      return ("(" ++ prop_accessor ++ " > datetime($" ++ pfx ++ "))", [(pfx, value)])
    else
      return ("", [])
  else
    match op_map_general operator with
    | some op =>
        return ("(" ++ prop_accessor ++ " IS NOT NULL AND " ++ prop_accessor
                  ++ " " ++ op ++ " $" ++ pfx ++ ")", [(pfx, value)])
    | none => return ("", [])

/-- A `(OPTIONAL) MATCH (src)-[:rel]->(dst:Label { nameProp: 'nameValue' })`
fragment reaching an attribute node, as emitted by the filter compiler
(strict, line 257) and by the aggregation template (optional, line 314). -/
structure AttrMatch where
  optionalM : Bool
  srcAlias : String
  rel : String
  label : String
  nameProp : String
  nameValue : String
  dstAlias : String
deriving DecidableEq, Repr

/-- Render an attribute-node match fragment to the exact text the Python
f-strings produce. -/
def AttrMatch.render (m : AttrMatch) : String :=
  (if m.optionalM then "OPTIONAL MATCH (" else "MATCH (")
    ++ m.srcAlias ++ ")-[:`" ++ m.rel ++ "`]->(" ++ m.dstAlias ++ ":`"
    ++ m.label ++ "` \x7b `" ++ m.nameProp ++ "`: \x27" ++ m.nameValue ++ "\x27 \x7d)"

/-- The strict attribute-node `MATCH` built for a `node`-storage filter
(backend.py line 257; the source comment reads "strict filtering").  Note the
`getattr(self, "config", CONFIG)` fallback on line 236: the filter compiler
always reads the attribute schema names from the module-level `CONFIG`
because no `self.config` attribute is ever set. -/
def filterAttrMatch (node_alias : String) (i : Nat) (prop_name : String) : AttrMatch :=
  { optionalM := false
    srcAlias := node_alias
    rel := cfgetD CONFIG "attribute_rel_name" "HAS_ATTRIBUTE"
    label := cfgetD CONFIG "attributeNodeLabel" "Attribute"
    nameProp := cfgetD CONFIG "attribute_name_property" "name"
    nameValue := prop_name
    dstAlias := "attr_" ++ toString i }

/-- The value-comparison expression for a `node`-storage filter
(backend.py line 263). -/
def nodeFilterExpr (i : Nat) (cypher_op : String) (param_name : String) : String :=
  let vp := cfgetD CONFIG "attribute_value_property" "value"
  let acc := "attr_" ++ toString i ++ ".`" ++ vp ++ "`"
  "(" ++ acc ++ " IS NOT NULL AND " ++ acc ++ " " ++ cypher_op ++ " $" ++ param_name ++ ")"

/-- The per-filter loop of `ProcessNorm._build_filter_clause`
(backend.py lines 241-270), accumulating predicate conjuncts, parameter
bindings and attribute match fragments in filter order. -/
def buildFilterClauseAux (node_alias : String) :
    Nat → List FilterData →
    Except String (List String × List (String × Value) × List String)
  | _, [] => .ok ([], [], [])
  | i, f :: rest => do
    let attribute_storage := f.attributeStorage.getD "property"
    let prop_name ← pyGet f.property_name "property_name"
    let operator ← pyGet f.property_operator "property_operator"
    let value ← pyGet f.property_value "property_value"
    let pfx := "exec_filter_" ++ toString i
    let (clauses, params, mfrags) ←
      if attribute_storage = "node" then
        -- the MATCH fragment is appended before the operator is checked
        let frag := (filterAttrMatch node_alias i prop_name).render
        match op_map_general operator with
        | some cypher_op =>
            pure ([nodeFilterExpr i cypher_op pfx], [(pfx, value)], [frag])
        | none => pure (([] : List String), ([] : List (String × Value)), [frag])
      else do
        let (clause, ps) ← ProcessNorm.build_single_filter_expression node_alias f pfx
        if clause ≠ "" then pure ([clause], ps, ([] : List String))
        else pure (([] : List String), ([] : List (String × Value)), ([] : List String))
    let (cs, pss, ms) ← buildFilterClauseAux node_alias (i + 1) rest
    return (clauses ++ cs, params ++ pss, mfrags ++ ms)

/-- `ProcessNorm._build_filter_clause` (backend.py lines 231-283): the full
filter compiler, returning the combined match/WHERE text and the parameter
bindings (`("", [])` when no filter produced a predicate). -/
def ProcessNorm.build_filter_clause (node_alias : String) (filters : List FilterData) :
    Except String (String × List (String × Value)) := do
  if filters = [] then return ("", [])
  let (all_clauses, all_params, match_clauses) ← buildFilterClauseAux node_alias 0 filters
  if all_clauses = [] then return ("", [])
  let match_str := String.intercalate "\n" match_clauses
  let where_str := String.intercalate " AND " all_clauses
  if match_str ≠ "" ∧ where_str ≠ "" then
    return (match_str ++ "\nWHERE " ++ where_str, all_params)
  else if match_str ≠ "" then
    return (match_str, all_params)
  else
    return ("WHERE " ++ where_str, all_params)

/-! ## Aggregation query template and grouping-key compiler
(`ProcessNorm._generate_aggregation_query_template`, backend.py lines 285-329) -/

/-- One element of a norm's `aggregation_properties` list.  `name` is a
required dict key (`prop_info['name']`, line 305); `attributeStorage` is read
with `.get(..., 'property')` (line 306). -/
structure GroupingProp where
  name : String
  attributeStorage : Option String := none
deriving DecidableEq, Repr

/-- The Cypher projection expressions the grouping-key compiler emits
(`coalesce(toString(alias.prop), 'N/A')` and the literal `'Overall'`). -/
inductive CExpr where
  | lit (s : String)
  | propRead (al vp : String)
  | toStr (e : CExpr)
  | coalesce (a b : CExpr)
deriving DecidableEq, Repr

/-- Render a projection expression to the exact text of the Python f-strings
(lines 316 and 318). -/
def CExpr.render : CExpr → String
  | .lit s => "\x27" ++ s ++ "\x27"
  | .propRead a p => a ++ ".`" ++ p ++ "`"
  | .toStr e => "toString(" ++ e.render ++ ")"
  | .coalesce a b => "coalesce(" ++ a.render ++ ", " ++ b.render ++ ")"

/-- The `for i, prop_info in enumerate(grouping_properties)` loop
(backend.py lines 304-318): per spec, an optional attribute-node match
fragment (for `node` storage) paired with the grouping-key component. -/
def aggPartsAux (config : Config) (galias : String) :
    Nat → List GroupingProp → List (Option AttrMatch × CExpr)
  | _, [] => []
  | i, p :: rest =>
    let part :=
      if p.attributeStorage.getD "property" = "node" then
        let a := "attr_" ++ toString i
        let m : AttrMatch :=
          { optionalM := true
            srcAlias := galias
            rel := cfgetD config "attribute_rel_name" "HAS_ATTRIBUTE"
            label := cfgetD config "attributeNodeLabel" "Attribute"
            nameProp := cfgetD config "attribute_name_property" "name"
            nameValue := p.name
            dstAlias := a }
        (some m,
         CExpr.coalesce
           (.toStr (.propRead a (cfgetD config "attribute_value_property" "value")))
           (.lit "N/A"))
      else
        (none,
         CExpr.coalesce (.toStr (.propRead galias p.name)) (.lit "N/A"))
    part :: aggPartsAux config galias (i + 1) rest

/-- The grouping key of the generated aggregation query: the constant
`'Overall'` (empty spec list) or the ordered list of per-spec components. -/
inductive AggKey where
  | overall
  | parts (l : List (Option AttrMatch × CExpr))
deriving DecidableEq, Repr

/-- The structured result of `_generate_aggregation_query_template`: the
grouping key together with the assembled query text. -/
structure AggQuery where
  key : AggKey
  text : String
deriving DecidableEq, Repr

/-- `ProcessNorm._generate_aggregation_query_template`
(backend.py lines 285-329), producing the exact query text along with the
structured grouping key. -/
def ProcessNorm.generate_aggregation_query_template
    (config : Config) (match_clause : String)
    (grouping_properties : List GroupingProp)
    (grouping_entity_alias : String)
    (aggregation_expressions : List String) : AggQuery :=
  if grouping_properties = [] then
    { key := .overall
      text := "\n            " ++ match_clause
        ++ "\n            RETURN \x27Overall\x27 as grouping_key,\n                   "
        ++ String.intercalate "," aggregation_expressions ++ "\n            " }
  else
    let parts := aggPartsAux config grouping_entity_alias 0 grouping_properties
    let additional_matches :=
      String.intercalate "\n        " (parts.filterMap (fun pr => pr.1.map AttrMatch.render))
    let grouping_key_str :=
      "[" ++ String.intercalate ", " (parts.map (fun pr => pr.2.render)) ++ "]"
    { key := .parts parts
      text := "\n        " ++ match_clause ++ "\n        " ++ additional_matches
        ++ "\n        RETURN " ++ grouping_key_str
        ++ " as grouping_key,\n               "
        ++ String.intercalate "," aggregation_expressions ++ "\n        " }

/-! ### Evaluation semantics of the emitted grouping-key expressions -/

/-- Cypher `toString` on the scalar values of this model. -/
def Value.toCypherString : Value → String
  | .str s => s
  | .int n => toString n
  | .bool b => if b then "true" else "false"
  | .null => "null"

/-- Evaluate a projection expression under an alias/property resolver
(Cypher semantics: `toString(NULL)` is `NULL`, `coalesce` picks the first
non-`NULL` argument, a property of an unmatched alias is `NULL`). -/
def CExpr.evalKey (resolve : String → String → Option Value) : CExpr → Option Value
  | .lit s => some (.str s)
  | .propRead a p => resolve a p
  | .toStr e => (e.evalKey resolve).map (fun v => .str v.toCypherString)
  | .coalesce a b =>
      match a.evalKey resolve with
      | some v => some v
      | none => b.evalKey resolve

/-- The subject a grouping key is evaluated against: its inline properties
and, for each attribute name, the value property of the (unique, when
present) attribute node linked to it by the has-attribute relation. -/
structure AggSubject where
  inlineProps : String → Option Value
  attrValue : String → Option Value

/-- The resolver induced by one grouping-key component's own optional match
fragment: the component's `attr_i` alias is bound to the attribute node the
fragment reaches (absent node = unmatched alias = `NULL` reads), every other
alias is the grouping entity itself. -/
def partResolver (galias vp : String) (s : AggSubject) (om : Option AttrMatch) :
    String → String → Option Value :=
  fun a p =>
    match om with
    | some m =>
        if a = m.dstAlias then
          if p = vp then s.attrValue m.nameValue else none
        else if a = galias then s.inlineProps p else none
    | none => if a = galias then s.inlineProps p else none

/-- The value of the grouping key of a generated aggregation query on a
subject: the single constant `"Overall"`, or the ordered tuple of component
strings (each component evaluated under its own fragment's resolver). -/
inductive GroupKeyVal where
  | single (s : String)
  | tuple (l : List String)
deriving DecidableEq, Repr

/-- Evaluate a generated grouping key on a subject.  A component's value is a
string whenever it evaluates to one (the emitted components are
`coalesce(toString(...), 'N/A')`, which always produce a string). -/
def AggKey.evalOn (galias vp : String) (s : AggSubject) : AggKey → GroupKeyVal
  | .overall => .single "Overall"
  | .parts l =>
      .tuple (l.map (fun pr =>
        match pr.2.evalKey (partResolver galias vp s pr.1) with
        | some v => v.toCypherString
        | none => "null"))

/-! ## PropertyValueNorm (backend.py lines 532-621): boolean compliance
expressions of the generated diagnostic queries and their semantics -/

/-- Cypher equality on scalar values (ternary: any comparison with `NULL`
is `NULL`, i.e. `none`). -/
def valueEq : Value → Value → Option Bool
  | .null, _ => none
  | _, .null => none
  | .int a, .int b => some (decide (a = b))
  | .str a, .str b => some (a == b)
  | .bool a, .bool b => some (decide (a = b))
  | _, _ => some false

/-- Cypher `<` on scalar values (`none` when incomparable or `NULL`). -/
def valueLt : Value → Value → Option Bool
  | .int a, .int b => some (decide (a < b))
  | .str a, .str b => some (decide (a < b))
  | _, _ => none

/-- Semantics of the Cypher comparison operators the op-maps emit. -/
def cmpValue : String → Value → Value → Option Bool
  | "=", a, b => valueEq a b
  | "<>", a, b => (valueEq a b).map (!·)
  | "<", a, b => valueLt a b
  | ">", a, b => valueLt b a
  | "<=", a, b => (valueLt b a).map (!·)
  | ">=", a, b => (valueLt a b).map (!·)
  | _, _, _ => none

/-- Cypher ternary-logic `AND`. -/
def cAnd : Option Bool → Option Bool → Option Bool
  | some false, _ => some false
  | some true, b => b
  | none, some false => some false
  | none, _ => none

/-- The boolean expressions occurring in the generated `WITH ... as complies`
clauses: alias-is-not-null, property-is-not-null, and a comparison of a
property read against the bound `$value` parameter. -/
inductive PExpr where
  | propRead (al p : String)
deriving DecidableEq, Repr

inductive BExpr where
  | nodeNotNull (al : String)
  | isNotNull (e : PExpr)
  | cmp (op : String) (e : PExpr) (v : Value)
  | band (a b : BExpr)
deriving DecidableEq, Repr

/-- A graph node as seen through property reads. -/
structure PVNode where
  props : String → Option Value

/-- Evaluate a property read under an alias environment (an unbound /
optional-unmatched alias is `NULL`, so all its property reads are `NULL`). -/
def PExpr.evalOn (env : String → Option PVNode) : PExpr → Option Value
  | .propRead a p => (env a).bind fun n => n.props p

/-- Evaluate a compliance expression under an alias environment. -/
def BExpr.evalOn (env : String → Option PVNode) : BExpr → Option Bool
  | .nodeNotNull a => some (env a).isSome
  | .isNotNull e => some (e.evalOn env).isSome
  | .cmp op e v =>
      match e.evalOn env with
      | none => none
      | some w => cmpValue op w v
  | .band a b => cAnd (a.evalOn env) (b.evalOn env)

/-- The `complies` expression of `PropertyValueNorm.generate_diagnostic_query`
for the two storage strategies (backend.py lines 569 and 578; the bound
`$value` parameter is substituted into the comparison). -/
def pvCompliesExpr (config : Config) (storage property_name cypher_op : String)
    (value : Value) : BExpr :=
  if storage = "node" then
    let vp := cfgetD config "attribute_value_property" "value"
    .band (.nodeNotNull "attr")
      (.band (.isNotNull (.propRead "attr" vp))
        (.cmp cypher_op (.propRead "attr" vp) value))
  else
    .band (.isNotNull (.propRead "n" property_name))
      (.cmp cypher_op (.propRead "n" property_name) value)

/-- The parameter bag `PropertyValueNorm.generate_diagnostic_query` reads
(`params.get(...)` on the merged norm dict; `execution_filters` is kept as a
typed list alongside the scalar entries). -/
structure PVParams where
  target_name : Option String := none
  property_name : Option String := none
  operator : Option String := none
  value : Option Value := none
  attributeStorage : Option String := none
  execution_filters : List FilterData := []
  run_id : Option String := none

/-- The structured result of `PropertyValueNorm.generate_diagnostic_query`:
the match/where text, the storage branch taken, the compliance expression of
the generated query, the attribute name its `OPTIONAL MATCH` looks up (node
branch only), and the returned parameter map. -/
structure PVDiag where
  storage : String
  match_clause : String
  where_clause : String
  complies : BExpr
  attrLookupName : Option String
  query_params : List (String × Value)

/-- `EventPropertyValueNorm.get_node_match` (backend.py line 616). -/
def EventPropertyValueNorm.get_node_match (config : Config) : String :=
  "MATCH (n:" ++ cfget config "event_node_label" ++ " \x7b `"
    ++ cfget config "activity_property" ++ "`: $target_name \x7d)"

/-- `EntityPropertyValueNorm.get_node_match` (backend.py line 621). -/
def EntityPropertyValueNorm.get_node_match (config : Config) : String :=
  "MATCH (n:" ++ cfget config "entity_node_label" ++ " \x7b `"
    ++ cfget config "entity_filter_property" ++ "`: $target_name \x7d)"

/-- `PropertyValueNorm.generate_diagnostic_query` (backend.py lines 537-601):
parameter validation, operator mapping, execution-filter compilation, and the
storage-strategy branch choosing the compliance expression.  `Except` carries
a `KeyError` escaping the filter compiler; the inner `Option` is the
`return None` of failed validation. -/
def pvParamsValid (params : PVParams) : Bool :=
  optStrTruthy params.target_name && optStrTruthy params.property_name
    && optStrTruthy params.operator && params.value.isSome

def PropertyValueNorm.generate_diagnostic_query
    (config : Config) (norm_id : String) (node_match : String)
    (params : PVParams) : Except String (Option PVDiag) := do
  if ¬ pvParamsValid params then
    return none
  let target_name := params.target_name.getD ""
  let property_name := params.property_name.getD ""
  let operator := params.operator.getD ""
  let value := params.value.getD .null
  match op_map_general operator with
  | none => return none
  | some cypher_op => do
    let (filter_conditions, filter_params) ←
      ProcessNorm.build_filter_clause "n" params.execution_filters
    let where_clause := if filter_conditions ≠ "" then filter_conditions else ""
    let attribute_storage := params.attributeStorage.getD "property"
    return some
      { storage := attribute_storage
        match_clause := node_match
        where_clause := where_clause
        complies := pvCompliesExpr config attribute_storage property_name cypher_op value
        attrLookupName := if attribute_storage = "node" then some property_name else none
        query_params :=
          [("value", value), ("norm_id", .str norm_id),
           ("target_name", .str target_name), ("property_name", .str property_name),
           ("run_id", (params.run_id.map Value.str).getD .null)] ++ filter_params }

/-- A subject node of a property-value diagnostic query: its element id, its
inline properties, and for each attribute name the (unique, when present)
attribute node reached over the has-attribute relation. -/
structure PVSubject where
  nid : String
  props : String → Option Value
  attrNode : String → Option PVNode

/-- The compliance verdict the generated diagnostic query computes for a
matched subject: the `complies` expression evaluated with `n` bound to the
subject and `attr` bound by the node branch's `OPTIONAL MATCH` (absent
attribute node = `NULL`). -/
def PVDiag.verdict (d : PVDiag) (s : PVSubject) : Option Bool :=
  d.complies.evalOn (fun a =>
    if a = "n" then some ⟨s.props⟩
    else if a = "attr" then d.attrLookupName.bind s.attrNode
    else none)

/-! ## ActivityDirectlyFollowsNorm (backend.py lines 494-529):
the generated diagnostic query text and its parameter map -/

/-- The parameter dict a norm's `generate_diagnostic_query` receives
(`norm_params = {**norm_data, "run_id": run_id}`): scalar entries, with the
`execution_filters` list kept alongside as a typed field. -/
structure NormParams where
  entries : List (String × Value) := []
  execution_filters : List FilterData := []

/-- The exact diagnostic query text of
`ActivityDirectlyFollowsNorm.generate_diagnostic_query` (backend.py lines
503-516).  Note line 508: the f-string interpolates the Python expression
`{not forbidden}` directly after a `$`, so the text contains a parameter
reference `$True` or `$False` (Python's `repr` of the bool). -/
def ActivityDirectlyFollowsNorm.diagnosticQueryText
    (config : Config) (where_clause : String) (forbidden : Bool) : String :=
  "\n        MATCH (ev_a:" ++ cfget config "event_node_label" ++ " \x7b `"
    ++ cfget config "activity_property" ++ "`: $activity_a \x7d)\n        "
    ++ where_clause
    ++ "\n        OPTIONAL MATCH (ev_a)-[:" ++ cfget config "df_rel_name"
    ++ "]->(ev_b:" ++ cfget config "event_node_label" ++ " \x7b `"
    ++ cfget config "activity_property" ++ "`: $activity_b \x7d)"
    ++ "\n        WITH ev_a, (ev_b IS NOT NULL) as directly_follows"
    ++ "\n        WITH ev_a, directly_follows, (directly_follows = $"
    ++ pyBoolRepr (!forbidden) ++ ") as complies"
    ++ "\n        MERGE (diag:" ++ cfget config "diagnostic_node_label"
    ++ " \x7b norm_id: $norm_id, related_id: elementId(ev_a) \x7d)"
    ++ "\n        SET diag.complies = complies"
    ++ "\n        MERGE (ev_a)-[:" ++ cfget config "compliance_rel_name" ++ "]->(diag)"
    ++ "\n\n        WITH diag"
    ++ "\n        MATCH (run:" ++ cfget config "analysis_run_node_label"
    ++ " \x7b run_id: $run_id \x7d)"
    ++ "\n        MERGE (diag)-[:`" ++ cfget config "generated_in_rel_name"
    ++ "`]->(run)\n        "

/-- `ActivityDirectlyFollowsNorm.generate_diagnostic_query` (backend.py lines
495-518): validation, filter compilation, query text, and the returned
parameter map `{**params, **filter_params}`. -/
def ActivityDirectlyFollowsNorm.generate_diagnostic_query
    (config : Config) (params : NormParams) :
    Except String (Option (String × List (String × Value))) := do
  let activity_a := params.entries.lookup "activity_a"
  let activity_b := params.entries.lookup "activity_b"
  let forbidden := ((params.entries.lookup "forbidden").getD (.bool false)).truthy
  if ¬ (optTruthy activity_a ∧ optTruthy activity_b) then return none
  let (filter_conditions, filter_params) ←
    ProcessNorm.build_filter_clause "ev_a" params.execution_filters
  let where_clause := if filter_conditions ≠ "" then "WHERE " ++ filter_conditions else ""
  let query := ActivityDirectlyFollowsNorm.diagnosticQueryText config where_clause forbidden
  return some (query, params.entries ++ filter_params)

/-! ### Parameter references of a query text -/

/-- Characters Cypher accepts in an (unquoted) parameter name. -/
def isIdentChar (c : Char) : Bool := c.isAlphanum || c = '_'

/-- Scan a query text for `$name` parameter references (the accumulator holds
the reversed characters of a name currently being read). -/
def paramScan : List Char → Option (List Char) → List String
  | [], none => []
  | [], some acc => if acc = [] then [] else [String.mk acc.reverse]
  | c :: rest, none =>
      if c = '$' then paramScan rest (some []) else paramScan rest none
  | c :: rest, some acc =>
      if isIdentChar c then paramScan rest (some (c :: acc))
      else
        (if acc = [] then [] else [String.mk acc.reverse])
          ++ paramScan rest (if c = '$' then some [] else none)

/-- All parameter names referenced in a query text. -/
def paramRefs (s : String) : List String := paramScan s.toList none

/-- Whether the parameter map binds every parameter the query references
(a query is executable by the store only when this holds). -/
def allParamsBound (query : String) (ps : List (String × Value)) : Bool :=
  (paramRefs query).all (fun n => (ps.lookup n).isSome)

/-! ## Diagnostic store: the `MERGE (diag { norm_id, related_id }) SET ...`
upsert semantics shared by the diagnostic queries -/

/-- A persisted Diagnostic record (the properties the diagnostic queries of
the claims write: the merge key, `complies`, and the optional measurement). -/
structure Diagnostic where
  norm_id : String
  related_id : String
  complies : Option Bool
  duration_seconds : Option Int
deriving DecidableEq, Repr

/-- One row of a diagnostic query as it reaches the `MERGE ... SET` step:
the merge key plus the `SET` assignments (`duration_seconds = none` means the
query's `SET` does not touch that property). -/
structure DiagWrite where
  norm_id : String
  related_id : String
  complies : Option Bool
  duration_seconds : Option (Option Int)
deriving DecidableEq, Repr

def Diagnostic.key (d : Diagnostic) : String × String := (d.norm_id, d.related_id)

def DiagWrite.key (w : DiagWrite) : String × String := (w.norm_id, w.related_id)

/-- `SET diag.complies = ..., diag.duration_seconds = ...` applied to an
existing record. -/
def applyWrite (w : DiagWrite) (d : Diagnostic) : Diagnostic :=
  { d with complies := w.complies,
           duration_seconds := w.duration_seconds.getD d.duration_seconds }

/-- The record `MERGE` creates when the key is absent, after `SET`. -/
def newEntry (w : DiagWrite) : Diagnostic :=
  applyWrite w
    { norm_id := w.norm_id, related_id := w.related_id,
      complies := none, duration_seconds := none }

/-- `MERGE (diag { norm_id: ..., related_id: ... }) SET ...` for one row:
update every record with the key in place, or append a fresh one. -/
def upsert (s : List Diagnostic) (w : DiagWrite) : List Diagnostic :=
  if s.any (fun d => decide (d.key = w.key)) then
    s.map (fun d => if d.key = w.key then applyWrite w d else d)
  else
    s ++ [newEntry w]

/-- Execute a diagnostic query's `MERGE ... SET` step row by row. -/
def applyWrites (s : List Diagnostic) (ws : List DiagWrite) : List Diagnostic :=
  ws.foldl upsert s

/-- How many records of the store carry a given `(norm_id, related_id)` key. -/
def countKey (s : List Diagnostic) (k : String × String) : Nat :=
  s.countP (fun d => decide (d.key = k))

/-- The store invariant: at most one Diagnostic per `(norm_id, related_id)`. -/
def UniqKeys (s : List Diagnostic) : Prop := ∀ k, countKey s k ≤ 1

/-! ## Diagnostic rows of the two rule variants named by claim C1 -/

/-- An Event node (element id, activity property, timestamp in seconds). -/
structure Event where
  eid : String
  activity : String
  time : Int
deriving DecidableEq, Repr

/-- The rows of `AverageTimeBetweenActivitiesNorm.generate_diagnostic_query`
(backend.py lines 379-394, with no execution filters): the cartesian match of
events with activities A and B, restricted to `ev_a.time < ev_b.time`, each
row carrying `complies = (duration OP threshold)` and the duration, keyed by
`elementId(ev_a) + '_' + elementId(ev_b)`. -/
def AverageTimeBetweenActivitiesNorm.diagnosticWrites
    (norm_id activity_a activity_b : String) (threshold_seconds : Int)
    (lessThan : Bool) (events : List Event) : List DiagWrite :=
  (events.filter (fun a => a.activity = activity_a)).flatMap (fun a =>
    (events.filter (fun b => b.activity = activity_b)).filterMap (fun b =>
      if a.time < b.time then
        let dur := b.time - a.time
        some { norm_id := norm_id
               related_id := a.eid ++ "_" ++ b.eid
               complies := some (if lessThan then decide (dur < threshold_seconds)
                                 else decide (dur > threshold_seconds))
               duration_seconds := some (some dur) }
      else none))

/-- The rows of `PropertyValueNorm.generate_diagnostic_query` (backend.py
lines 564-582, with no execution filters): subjects matched by
`get_node_match` (`matchProp` is the label-specific name filter property),
each row carrying the verdict of the generated `complies` expression, keyed
by `elementId(n)`. -/
def PropertyValueNorm.diagnosticWrites
    (d : PVDiag) (norm_id matchProp target_name : String)
    (subjects : List PVSubject) : List DiagWrite :=
  (subjects.filter (fun s => decide (s.props matchProp = some (.str target_name)))).map
    (fun s => { norm_id := norm_id
                related_id := s.nid
                complies := d.verdict s
                duration_seconds := none })

/-! ## Run orchestration (`parse_and_run_norms`, backend.py lines 636-666,
and `run_analysis_from_request`, lines 740-783) -/

/-- A submitted norm definition dict (the keys `parse_and_run_norms` reads;
absent key = `none`; `filters` distinguishes an absent key from an empty
list because the source tests `"filters" in norm_data and norm_data["filters"]`). -/
structure NormData where
  norm_type : Option String := none
  norm_id : Option String := none
  description : Option String := none
  attributeStorage : Option String := none
  filters : Option (List FilterData) := none

/-- The keys of `NORM_CLASS_MAP` (backend.py lines 626-633). -/
def NORM_CLASS_MAP_keys : List String :=
  ["AverageTimeBetweenActivitiesNorm", "EntityFollowsEntityNorm",
   "EventToEntityRelationshipNorm", "ActivityDirectlyFollowsNorm",
   "EventPropertyValueNorm", "EntityPropertyValueNorm"]

/-- One iteration of the `for norm_data in data.get("norms", [])` loop
(backend.py lines 641-665).  `runAnalysis` abstracts the effectful
`norm.run_analysis` call (database execution): `.ok (some report)` appends
the report, `.ok none` produces no report, `.error` is the exception the
`except KeyError` / `except Exception` handlers swallow.  An unknown (or
missing) `norm_type` is skipped; a missing `norm_id` or `description` raises
a `KeyError` caught at the same boundary. -/
def runNormBody (runAnalysis : NormData → Except String (Option String))
    (norm_data : NormData) : Except String (Option String) := do
  let _ ← pyGet norm_data.norm_id "norm_id"
  let _ ← pyGet norm_data.description "description"
  runAnalysis norm_data

def runNormStep (runAnalysis : NormData → Except String (Option String))
    (reports : List String) (norm_data : NormData) : List String :=
  match norm_data.norm_type with
  | none => reports
  | some t =>
    if NORM_CLASS_MAP_keys.contains t then
      match runNormBody runAnalysis norm_data with
      | .ok (some report) => reports ++ [report]
      | _ => reports
    else reports

/-- `parse_and_run_norms` (backend.py lines 636-666), as the list of reports
it returns. -/
def parse_and_run_norms (runAnalysis : NormData → Except String (Option String))
    (norms : List NormData) : List String :=
  norms.foldl (runNormStep runAnalysis) []

/-- The `attributeStorage` entry of `norm_params` after the special-casing of
the property-value norms (backend.py lines 655-658): for those two norm
types, a non-empty `filters` list overwrites the entry with
`filters[0].get("attributeStorage", "property")`; otherwise whatever the
norm dict itself carried (usually nothing) is left in place. -/
def normParamsAttributeStorage (norm_data : NormData) : Option String :=
  if norm_data.norm_type = some "EventPropertyValueNorm"
     ∨ norm_data.norm_type = some "EntityPropertyValueNorm" then
    match norm_data.filters with
    | some (f :: _) => some (f.attributeStorage.getD "property")
    | _ => norm_data.attributeStorage
  else norm_data.attributeStorage

/-- The storage strategy `PropertyValueNorm.generate_diagnostic_query`
actually uses (`params.get("attributeStorage", "property")`, line 555) for a
norm processed by `parse_and_run_norms`. -/
def effectiveAttributeStorage (norm_data : NormData) : String :=
  (normParamsAttributeStorage norm_data).getD "property"

/-- The AnalysisRun creation query of `run_analysis_from_request`
(backend.py lines 747-755). -/
def createRunQueryText (run_label : String) : String :=
  "\n    CREATE (run:" ++ run_label
    ++ " \x7b\n        run_id: $run_id, \n        run_type: $run_type,"
    ++ "\n        schedule: $schedule,\n        start_time: datetime(), "
    ++ "\n        status: \x27running\x27\n    \x7d)\n    "

/-- The status-update query of `run_analysis_from_request`
(backend.py line 776). -/
def updateStatusQueryText (run_label : String) : String :=
  "MATCH (run:" ++ run_label ++ " \x7brun_id: $run_id\x7d) SET run.status = $status"

/-- The queries one invocation of `run_analysis_from_request` generates, as a
function of the request's `config` overrides: the run-creation and
status-update texts (built from the module-level `CONFIG` on lines 745, 747
and 776, before and outside any override) and the per-norm config
(`base_config = CONFIG.copy()` on line 769 then `config.update(json_config)`
in `parse_and_run_norms`, line 639) from which every diagnostic and
aggregation query is generated. -/
structure RunInvocationQueries where
  createRun : String
  updateStatus : String
  normConfig : Config

def run_analysis_from_request (request_config : Config) : RunInvocationQueries :=
  { createRun := createRunQueryText (cfget CONFIG "analysis_run_node_label")
    updateStatus := updateStatusQueryText (cfget CONFIG "analysis_run_node_label")
    normConfig := cfgUpdate CONFIG request_config }

/-! ## Small string helpers used by the theorems -/

/-- Boolean prefix test on character lists. -/
def listPre : List Char → List Char → Bool
  | [], _ => true
  | _ :: _, [] => false
  | a :: xs, b :: ys => a = b && listPre xs ys

/-- `strStarts s pre`: does `s` start with `pre`? -/
def strStarts (s pre : String) : Bool := listPre pre.toList s.toList

/-- Boolean infix test on character lists. -/
def listInf (needle : List Char) : List Char → Bool
  | [] => needle.isEmpty
  | c :: rest => listPre needle (c :: rest) || listInf needle rest

/-- `strContains s sub`: does `sub` occur in `s`? -/
def strContains (s sub : String) : Bool := listInf sub.toList s.toList

/-! ## Store lemmas for the `MERGE ... SET` upsert -/

/-- A key is present in the store. -/
def HasKey (s : List Diagnostic) (k : String × String) : Prop :=
  ∃ d ∈ s, d.key = k

/-- Every record at the write's key is already exactly what the write's
`SET` produces (so re-applying the write changes nothing). -/
def FixedAt (s : List Diagnostic) (w : DiagWrite) : Prop :=
  ∀ d ∈ s, d.key = w.key → applyWrite w d = d

theorem applyWrite_applyWrite (w : DiagWrite) (d : Diagnostic) :
    applyWrite w (applyWrite w d) = applyWrite w d := by
  cases h : w.duration_seconds <;> simp [applyWrite, h]

theorem key_applyWrite (w : DiagWrite) (d : Diagnostic) :
    (applyWrite w d).key = d.key := rfl

theorem key_newEntry (w : DiagWrite) : (newEntry w).key = w.key := rfl

theorem map_id_of {α : Type} (l : List α) (f : α → α) (h : ∀ a ∈ l, f a = a) :
    l.map f = l := by
  induction l with
  | nil => rfl
  | cons a t ih => simp only [List.map_cons]; rw [h a (by simp), ih]
                   intro b hb; exact h b (by simp [hb])

theorem upsert_eq_self {s : List Diagnostic} {w : DiagWrite}
    (h1 : HasKey s w.key) (h2 : FixedAt s w) : upsert s w = s := by
  obtain ⟨d, hd, hk⟩ := h1
  have hany : s.any (fun d => decide (d.key = w.key)) = true := by
    rw [List.any_eq_true]; exact ⟨d, hd, by simp [hk]⟩
  rw [upsert, if_pos hany]
  apply map_id_of
  intro a ha
  by_cases hak : a.key = w.key
  · rw [if_pos hak]; exact h2 a ha hak
  · rw [if_neg hak]

theorem hasKey_upsert (s : List Diagnostic) (w : DiagWrite) :
    HasKey (upsert s w) w.key := by
  rw [upsert]
  by_cases hany : s.any (fun d => decide (d.key = w.key)) = true
  · rw [if_pos hany]
    obtain ⟨d, hd, hk⟩ := List.any_eq_true.mp hany
    refine ⟨applyWrite w d, ?_, by rw [key_applyWrite]; exact of_decide_eq_true hk⟩
    have : (if d.key = w.key then applyWrite w d else d) = applyWrite w d :=
      if_pos (of_decide_eq_true hk)
    exact this ▸ List.mem_map_of_mem _ hd
  · rw [if_neg hany]
    exact ⟨newEntry w, by simp, key_newEntry w⟩

theorem fixedAt_upsert (s : List Diagnostic) (w : DiagWrite) :
    FixedAt (upsert s w) w := by
  rw [upsert]
  by_cases hany : s.any (fun d => decide (d.key = w.key)) = true
  · rw [if_pos hany]
    intro e he hek
    obtain ⟨d, hd, hde⟩ := List.mem_map.mp he
    by_cases hdk : d.key = w.key
    · rw [if_pos hdk] at hde; rw [← hde]; exact applyWrite_applyWrite w d
    · rw [if_neg hdk] at hde; rw [← hde] at hek; exact absurd hek hdk
  · rw [if_neg hany]
    intro e he hek
    rcases List.mem_append.mp he with hs | hn
    · have := List.any_eq_false.mp (Bool.not_eq_true _ ▸ hany) e hs
      simp only [decide_eq_true_eq] at this
      exact absurd hek this
    · have : e = newEntry w := by simpa using hn
      rw [this]; exact applyWrite_applyWrite w _

theorem hasKey_upsert_of_hasKey {s : List Diagnostic} {k : String × String}
    (w : DiagWrite) (h : HasKey s k) : HasKey (upsert s w) k := by
  obtain ⟨d, hd, hk⟩ := h
  rw [upsert]
  by_cases hany : s.any (fun x => decide (x.key = w.key)) = true
  · rw [if_pos hany]
    by_cases hdk : d.key = w.key
    · refine ⟨applyWrite w d, ?_, by rw [key_applyWrite]; exact hk⟩
      have : (if d.key = w.key then applyWrite w d else d) = applyWrite w d := if_pos hdk
      exact this ▸ List.mem_map_of_mem _ hd
    · refine ⟨d, ?_, hk⟩
      have : (if d.key = w.key then applyWrite w d else d) = d := if_neg hdk
      exact this ▸ List.mem_map_of_mem _ hd
  · rw [if_neg hany]
    exact ⟨d, List.mem_append_left _ hd, hk⟩

theorem fixedAt_upsert_foreign {s : List Diagnostic} {w w' : DiagWrite}
    (hk : w.key ≠ w'.key) (h : FixedAt s w) : FixedAt (upsert s w') w := by
  rw [upsert]
  by_cases hany : s.any (fun x => decide (x.key = w'.key)) = true
  · rw [if_pos hany]
    intro e he hek
    obtain ⟨d, hd, hde⟩ := List.mem_map.mp he
    by_cases hdk : d.key = w'.key
    · rw [if_pos hdk] at hde
      rw [← hde, key_applyWrite] at hek
      exact absurd (hek ▸ hdk : w.key = w'.key) hk
    · rw [if_neg hdk] at hde
      rw [← hde]; exact h d hd (hde ▸ hek)
  · rw [if_neg hany]
    intro e he hek
    rcases List.mem_append.mp he with hs | hn
    · exact h e hs hek
    · have hne : e = newEntry w' := by simpa using hn
      rw [hne, key_newEntry] at hek
      exact absurd hek.symm hk

theorem hasKey_applyWrites {s : List Diagnostic} {k : String × String}
    (ws : List DiagWrite) (h : HasKey s k) : HasKey (applyWrites s ws) k := by
  induction ws generalizing s with
  | nil => exact h
  | cons w t ih => exact ih (hasKey_upsert_of_hasKey w h)

theorem fixedAt_applyWrites_foreign {s : List Diagnostic} {w : DiagWrite}
    (ws : List DiagWrite) (hk : w.key ∉ ws.map DiagWrite.key)
    (h : FixedAt s w) : FixedAt (applyWrites s ws) w := by
  induction ws generalizing s with
  | nil => exact h
  | cons w' t ih =>
    have h1 : w.key ≠ w'.key := by
      intro he; exact hk (by simp [he])
    have h2 : w.key ∉ t.map DiagWrite.key := by
      intro he; exact hk (by simp [he])
    exact ih h2 (fixedAt_upsert_foreign h1 h)

theorem applyWrites_idem (ws : List DiagWrite) (s : List Diagnostic)
    (h : (ws.map DiagWrite.key).Nodup) :
    applyWrites (applyWrites s ws) ws = applyWrites s ws := by
  induction ws generalizing s with
  | nil => rfl
  | cons w t ih =>
    rw [List.map_cons] at h
    have hw : w.key ∉ t.map DiagWrite.key := (List.nodup_cons.mp h).1
    have ht : (t.map DiagWrite.key).Nodup := (List.nodup_cons.mp h).2
    show applyWrites (upsert (applyWrites (upsert s w) t) w) t
        = applyWrites (upsert s w) t
    have hhas : HasKey (applyWrites (upsert s w) t) w.key :=
      hasKey_applyWrites t (hasKey_upsert s w)
    have hfix : FixedAt (applyWrites (upsert s w) t) w :=
      fixedAt_applyWrites_foreign t hw (fixedAt_upsert s w)
    rw [upsert_eq_self hhas hfix]
    exact ih (upsert s w) ht

theorem countKey_upsert_self {s : List Diagnostic} (w : DiagWrite)
    (hs : UniqKeys s) : countKey (upsert s w) w.key = 1 := by
  rw [upsert]
  by_cases hany : s.any (fun d => decide (d.key = w.key)) = true
  · rw [if_pos hany]
    have hmap : countKey (s.map (fun d => if d.key = w.key then applyWrite w d else d))
        w.key = countKey s w.key := by
      rw [countKey, List.countP_map]
      apply List.countP_congr
      intro d _
      by_cases hdk : d.key = w.key
      · simp [Function.comp, hdk, key_applyWrite]
      · simp [Function.comp, hdk]
    rw [hmap]
    have hpos : 0 < countKey s w.key := by
      rw [countKey, List.countP_pos_iff]
      obtain ⟨d, hd, hk⟩ := List.any_eq_true.mp hany
      exact ⟨d, hd, hk⟩
    exact Nat.le_antisymm (hs w.key) hpos
  · rw [if_neg hany]
    have hzero : countKey s w.key = 0 := by
      rw [countKey, List.countP_eq_zero]
      intro d hd
      have := List.any_eq_false.mp (Bool.not_eq_true _ ▸ hany) d hd
      simpa using this
    rw [countKey, List.countP_append, ← countKey, hzero]
    simp [countKey, key_newEntry]

theorem countKey_upsert_foreign {s : List Diagnostic} {k : String × String}
    (w : DiagWrite) (hk : k ≠ w.key) : countKey (upsert s w) k = countKey s k := by
  rw [upsert]
  by_cases hany : s.any (fun d => decide (d.key = w.key)) = true
  · rw [if_pos hany, countKey, List.countP_map]
    apply List.countP_congr
    intro d _
    by_cases hdk : d.key = w.key
    · simp [Function.comp, hdk, key_applyWrite]
    · simp [Function.comp, hdk]
  · rw [if_neg hany, countKey, List.countP_append]
    have : (List.countP (fun d => decide (d.key = k)) [newEntry w]) = 0 := by
      simp [key_newEntry, Ne.symm hk]
    rw [← countKey, this]
    simp

theorem uniqKeys_upsert {s : List Diagnostic} (w : DiagWrite)
    (hs : UniqKeys s) : UniqKeys (upsert s w) := by
  intro k
  by_cases hk : k = w.key
  · rw [hk, countKey_upsert_self w hs]
  · rw [countKey_upsert_foreign w hk]; exact hs k

theorem uniqKeys_applyWrites {s : List Diagnostic} (ws : List DiagWrite)
    (hs : UniqKeys s) : UniqKeys (applyWrites s ws) := by
  induction ws generalizing s with
  | nil => exact hs
  | cons w t ih => exact ih (uniqKeys_upsert w hs)

theorem countKey_applyWrites_foreign {s : List Diagnostic} {k : String × String}
    (ws : List DiagWrite) (hk : k ∉ ws.map DiagWrite.key) :
    countKey (applyWrites s ws) k = countKey s k := by
  induction ws generalizing s with
  | nil => rfl
  | cons w t ih =>
    have h1 : k ≠ w.key := fun he => hk (by simp [he])
    have h2 : k ∉ t.map DiagWrite.key := fun he => hk (by simp [he])
    show countKey (applyWrites (upsert s w) t) k = countKey s k
    rw [ih h2, countKey_upsert_foreign w h1]

theorem countKey_applyWrites_of_mem {s : List Diagnostic} {w : DiagWrite}
    (ws : List DiagWrite) (hn : (ws.map DiagWrite.key).Nodup)
    (hs : UniqKeys s) (hw : w ∈ ws) :
    countKey (applyWrites s ws) w.key = 1 := by
  induction ws generalizing s with
  | nil => exact absurd hw (List.not_mem_nil w)
  | cons w' t ih =>
    rw [List.map_cons] at hn
    have hcons := List.nodup_cons.mp hn
    rcases List.mem_cons.mp hw with he | ht
    · subst he
      show countKey (applyWrites (upsert s w) t) w.key = 1
      rw [countKey_applyWrites_foreign t hcons.1]
      exact countKey_upsert_self w hs
    · exact ih hcons.2 (uniqKeys_upsert w' hs) ht

/-! ## Claim C1 -/

/-- C1: for a norm and an unchanged graph state, running the generated
diagnostic query twice produces exactly one Diagnostic per
`(norm_id, related_id)` pair, with `complies` unchanged by the second run:
the second run leaves the store exactly as the first run left it (so every
`complies` value is unchanged), and every matched key holds exactly one
record.  Stated for the two rule variants the claim cites
(`AverageTimeBetweenActivitiesNorm`, lines 386-389, and `PropertyValueNorm`,
lines 570-572), over any initial store satisfying the at-most-one-per-key
invariant, assuming the store-guaranteed uniqueness of the element ids that
form the `related_id` keys. -/
theorem C1_diagnostic_rerun_idempotent
    (s1 s2 : List Diagnostic)
    (nid aa ab : String) (thr : Int) (lt : Bool) (events : List Event)
    (d : PVDiag) (nid2 matchProp target : String) (subjects : List PVSubject)
    (h1 : ((AverageTimeBetweenActivitiesNorm.diagnosticWrites nid aa ab thr lt
            events).map DiagWrite.key).Nodup)
    (hs1 : UniqKeys s1)
    (h2 : ((PropertyValueNorm.diagnosticWrites d nid2 matchProp target
            subjects).map DiagWrite.key).Nodup)
    (hs2 : UniqKeys s2) :
    (applyWrites
        (applyWrites s1 (AverageTimeBetweenActivitiesNorm.diagnosticWrites
          nid aa ab thr lt events))
        (AverageTimeBetweenActivitiesNorm.diagnosticWrites nid aa ab thr lt events)
      = applyWrites s1 (AverageTimeBetweenActivitiesNorm.diagnosticWrites
          nid aa ab thr lt events)
     ∧ ∀ w ∈ AverageTimeBetweenActivitiesNorm.diagnosticWrites nid aa ab thr lt events,
         countKey (applyWrites s1 (AverageTimeBetweenActivitiesNorm.diagnosticWrites
           nid aa ab thr lt events)) w.key = 1)
    ∧
    (applyWrites
        (applyWrites s2 (PropertyValueNorm.diagnosticWrites d nid2 matchProp target
          subjects))
        (PropertyValueNorm.diagnosticWrites d nid2 matchProp target subjects)
      = applyWrites s2 (PropertyValueNorm.diagnosticWrites d nid2 matchProp target
          subjects)
     ∧ ∀ w ∈ PropertyValueNorm.diagnosticWrites d nid2 matchProp target subjects,
         countKey (applyWrites s2 (PropertyValueNorm.diagnosticWrites d nid2 matchProp
           target subjects)) w.key = 1) :=
  ⟨⟨applyWrites_idem _ s1 h1,
    fun _ hw => countKey_applyWrites_of_mem _ h1 hs1 hw⟩,
   ⟨applyWrites_idem _ s2 h2,
    fun _ hw => countKey_applyWrites_of_mem _ h2 hs2 hw⟩⟩

/-- Concrete inputs witnessing C1. -/
def c1Events : List Event := [⟨"e1", "Submit", 0⟩, ⟨"e2", "Approve", 1800⟩]

def c1PVDiag : PVDiag :=
  { storage := "property"
    match_clause := EntityPropertyValueNorm.get_node_match CONFIG
    where_clause := ""
    complies := pvCompliesExpr CONFIG "property" "amount" ">=" (.int 100)
    attrLookupName := none
    query_params := [] }

def c1Subject : PVSubject :=
  { nid := "s1"
    props := fun p => if p = "type" then some (.str "Order")
             else if p = "amount" then some (.int 150) else none
    attrNode := fun _ => none }

/-- Witness for C1 at concrete inputs (empty initial store; one Submit and
one Approve event 1800 s apart; one Order subject). -/
theorem C1_diagnostic_rerun_idempotent_witness :
    (applyWrites
        (applyWrites [] (AverageTimeBetweenActivitiesNorm.diagnosticWrites
          "n1" "Submit" "Approve" 3600 true c1Events))
        (AverageTimeBetweenActivitiesNorm.diagnosticWrites "n1" "Submit" "Approve"
          3600 true c1Events)
      = applyWrites [] (AverageTimeBetweenActivitiesNorm.diagnosticWrites
          "n1" "Submit" "Approve" 3600 true c1Events)
     ∧ ∀ w ∈ AverageTimeBetweenActivitiesNorm.diagnosticWrites "n1" "Submit" "Approve"
          3600 true c1Events,
         countKey (applyWrites [] (AverageTimeBetweenActivitiesNorm.diagnosticWrites
           "n1" "Submit" "Approve" 3600 true c1Events)) w.key = 1)
    ∧
    (applyWrites
        (applyWrites [] (PropertyValueNorm.diagnosticWrites c1PVDiag "n2" "type" "Order"
          [c1Subject]))
        (PropertyValueNorm.diagnosticWrites c1PVDiag "n2" "type" "Order" [c1Subject])
      = applyWrites [] (PropertyValueNorm.diagnosticWrites c1PVDiag "n2" "type" "Order"
          [c1Subject])
     ∧ ∀ w ∈ PropertyValueNorm.diagnosticWrites c1PVDiag "n2" "type" "Order" [c1Subject],
         countKey (applyWrites [] (PropertyValueNorm.diagnosticWrites c1PVDiag "n2" "type"
           "Order" [c1Subject])) w.key = 1) :=
  C1_diagnostic_rerun_idempotent [] [] "n1" "Submit" "Approve" 3600 true c1Events
    c1PVDiag "n2" "type" "Order" [c1Subject]
    (by decide)
    (by intro k; simp [countKey])
    (by decide)
    (by intro k; simp [countKey])

/-! ## Claim C2 -/

/-- The verdict the diagnostic query generated by
`PropertyValueNorm.generate_diagnostic_query` computes for a subject, as a
function of the storage strategy (outer `Except`: a `KeyError` escaping
filter compilation; inner `Option`: generation returned `None`). -/
def pvVerdict (config : Config) (storage operator pn tname : String) (tv : Value)
    (s : PVSubject) : Except String (Option (Option Bool)) :=
  (PropertyValueNorm.generate_diagnostic_query config "norm1"
    (EntityPropertyValueNorm.get_node_match config)
    { target_name := some tname, property_name := some pn, operator := some operator,
      value := some tv, attributeStorage := some storage,
      execution_filters := [], run_id := some "r" }).map
    (Option.map (fun q => q.verdict s))

/-- A subject holding the logical value `v` of property `pn` inline. -/
def inlineSubject (pn : String) (v : Value) : PVSubject :=
  { nid := "s"
    props := fun p => if p = pn then some v else none
    attrNode := fun _ => none }

/-- A subject holding the logical value `v` of property `pn` as an attribute
node (the node's value property named by the config). -/
def nodeSubject (config : Config) (pn : String) (v : Value) : PVSubject :=
  { nid := "s"
    props := fun _ => none
    attrNode := fun nm =>
      if nm = pn then
        some ⟨fun p => if p = cfgetD config "attribute_value_property" "value"
                       then some v else none⟩
      else none }

/-- C2: for every operator, property name, target and comparison value, the
compliance verdict of the generated diagnostic query is identical for a
subject holding the property inline and for a subject holding the equal
logical value in an attribute node; in particular the
`EntityPropertyValueNorm(target_name="Order", property_name="amount",
operator=">=", value=100)` scenario yields `complies = true` for both an
inline `amount = 150` and an attribute node with `value = 150`. -/
theorem C2_storage_strategy_equivalence :
    (∀ (config : Config) (operator pn tname : String) (tv v : Value),
      pvVerdict config "property" operator pn tname tv (inlineSubject pn v)
        = pvVerdict config "node" operator pn tname tv (nodeSubject config pn v))
    ∧ pvVerdict CONFIG "property" ">=" "amount" "Order" (.int 100)
        (inlineSubject "amount" (.int 150)) = .ok (some (some true))
    ∧ pvVerdict CONFIG "node" ">=" "amount" "Order" (.int 100)
        (nodeSubject CONFIG "amount" (.int 150)) = .ok (some (some true)) := by
  refine ⟨?_, by rfl, by rfl⟩
  intro config operator pn tname tv v
  have hpn : ("property" : String) ≠ "node" := by decide
  have han : ("attr" : String) ≠ "n" := by decide
  by_cases hval : (optStrTruthy (some tname) && optStrTruthy (some pn)
      && optStrTruthy (some operator) && (some tv).isSome) = true
  · simp only [Bool.and_eq_true] at hval
    obtain ⟨⟨⟨h1, h2⟩, h3⟩, _⟩ := hval
    cases hop : op_map_general operator with
    | none =>
        simp [pvVerdict, PropertyValueNorm.generate_diagnostic_query, pvParamsValid,
          h1, h2, h3, hop, Except.map, pure, Except.pure, bind, Except.bind]
    | some cop =>
        simp [pvVerdict, PropertyValueNorm.generate_diagnostic_query, pvParamsValid,
          ProcessNorm.build_filter_clause, h1, h2, h3, hop, Except.map, pure, Except.pure,
          bind, Except.bind, PVDiag.verdict, pvCompliesExpr, hpn, han, BExpr.evalOn, PExpr.evalOn,
          inlineSubject, nodeSubject, cAnd]
  · have hcond : optStrTruthy (some tname) = true ∧ optStrTruthy (some pn) = true →
        optStrTruthy (some operator) = false := by
      intro ha
      cases hc : optStrTruthy (some operator) with
      | false => rfl
      | true => exact absurd (by simp [ha.1, ha.2, hc]) hval
    simp only [pvVerdict, PropertyValueNorm.generate_diagnostic_query, pvParamsValid,
      Except.map, pure, Except.pure, bind, Except.bind, Option.isSome_some,
      Bool.and_true, Bool.and_eq_true, not_and, Bool.not_eq_true]
    rw [if_pos hcond, if_pos hcond]
    rfl

/-! ## Claim C3 -/

theorem runNormStep_append (runAnalysis : NormData → Except String (Option String))
    (reports : List String) (norm_data : NormData) :
    runNormStep runAnalysis reports norm_data
      = reports ++ runNormStep runAnalysis [] norm_data := by
  rw [runNormStep, runNormStep]
  cases norm_data.norm_type with
  | none => simp
  | some t =>
    by_cases hc : t ∈ NORM_CLASS_MAP_keys
    · cases hb : runNormBody runAnalysis norm_data with
      | error e => simp [hc, hb]
      | ok r => cases r <;> simp [hc, hb]
    · simp [hc]

theorem parse_and_run_norms_acc (runAnalysis : NormData → Except String (Option String))
    (norms : List NormData) (acc : List String) :
    norms.foldl (runNormStep runAnalysis) acc
      = acc ++ parse_and_run_norms runAnalysis norms := by
  induction norms generalizing acc with
  | nil => simp [parse_and_run_norms]
  | cons nd t ih =>
    show (t.foldl (runNormStep runAnalysis) (runNormStep runAnalysis acc nd))
        = acc ++ parse_and_run_norms runAnalysis (nd :: t)
    rw [ih, runNormStep_append]
    show acc ++ runNormStep runAnalysis [] nd ++ parse_and_run_norms runAnalysis t
        = acc ++ (nd :: t).foldl (runNormStep runAnalysis) []
    rw [List.foldl_cons, ih (runNormStep runAnalysis [] nd), List.append_assoc]

theorem parse_and_run_norms_append (runAnalysis : NormData → Except String (Option String))
    (xs ys : List NormData) :
    parse_and_run_norms runAnalysis (xs ++ ys)
      = parse_and_run_norms runAnalysis xs ++ parse_and_run_norms runAnalysis ys := by
  rw [parse_and_run_norms, List.foldl_append]
  rw [show (xs.foldl (runNormStep runAnalysis) []) = parse_and_run_norms runAnalysis xs
        from rfl]
  exact parse_and_run_norms_acc runAnalysis ys (parse_and_run_norms runAnalysis xs)

/-- C3: per-norm error recovery in `parse_and_run_norms` (backend.py lines
636-666).  A norm whose `norm_type` is unknown (or missing) is skipped, and a
norm whose evaluation raises (a `KeyError` from a missing `norm_id` /
`description` / filter bound, or any exception from `run_analysis`, which the
`except` handlers at lines 662-665 swallow) contributes nothing — and in
either case every norm before and after it is still evaluated and its report
delivered unchanged. -/
theorem C3_bad_norm_recovered_per_norm
    (runAnalysis : NormData → Except String (Option String))
    (l1 l2 : List NormData) (bad : NormData)
    (hbad : (∀ t, bad.norm_type = some t → t ∉ NORM_CLASS_MAP_keys)
            ∨ (∃ e, runNormBody runAnalysis bad = .error e)) :
    parse_and_run_norms runAnalysis (l1 ++ bad :: l2)
      = parse_and_run_norms runAnalysis l1 ++ parse_and_run_norms runAnalysis l2 := by
  have hbadnil : parse_and_run_norms runAnalysis [bad] = [] := by
    show runNormStep runAnalysis [] bad = []
    rw [runNormStep]
    cases ht : bad.norm_type with
    | none => rfl
    | some t =>
      rcases hbad with hu | ⟨e, he⟩
      · simp [hu t ht]
      · by_cases hc : t ∈ NORM_CLASS_MAP_keys
        · simp [hc, he]
        · simp [hc]
  have : l1 ++ bad :: l2 = l1 ++ [bad] ++ l2 := by simp
  rw [this, parse_and_run_norms_append, parse_and_run_norms_append, hbadnil]
  simp

/-- Concrete norms witnessing C3: a well-formed norm, then a norm whose
evaluation raises, then another well-formed norm. -/
def c3Good1 : NormData :=
  { norm_type := some "ActivityDirectlyFollowsNorm", norm_id := some "g1",
    description := some "d1" }

def c3Good2 : NormData :=
  { norm_type := some "EntityPropertyValueNorm", norm_id := some "g2",
    description := some "d2" }

def c3Bad : NormData :=
  { norm_type := some "EventPropertyValueNorm", norm_id := some "bad",
    description := some "d" }

def c3Run : NormData → Except String (Option String) :=
  fun nd => if nd.norm_id = some "bad" then .error "boom"
            else .ok (some ((nd.norm_id.getD "") ++ "-report"))

/-- Witness for C3: with a middle norm whose evaluation raises, the reports
of the surrounding norms are exactly those of the run without it. -/
theorem C3_bad_norm_recovered_per_norm_witness :
    parse_and_run_norms c3Run ([c3Good1] ++ c3Bad :: [c3Good2])
      = parse_and_run_norms c3Run [c3Good1] ++ parse_and_run_norms c3Run [c3Good2] :=
  C3_bad_norm_recovered_per_norm c3Run [c3Good1] [c3Good2] c3Bad
    (Or.inr ⟨"boom", rfl⟩)

/-! ## Claim C4 -/

/-- Extract the query text of a successful generation (`""` otherwise). -/
def exceptQueryText (r : Except String (Option (String × List (String × Value)))) :
    String :=
  match r with
  | .ok (some (q, _)) => q
  | _ => ""

/-- Extract the parameter map of a successful generation (`[]` otherwise). -/
def exceptQueryParams (r : Except String (Option (String × List (String × Value)))) :
    List (String × Value) :=
  match r with
  | .ok (some (_, p)) => p
  | _ => []

/-- The norm parameters of the C4 failing input: an
`ActivityDirectlyFollowsNorm` with activities `A`, `B` and the `forbidden`
flag left at its default `False`. -/
def c4Params : NormParams :=
  { entries := [("norm_type", .str "ActivityDirectlyFollowsNorm"),
                ("norm_id", .str "n1"), ("description", .str "d"),
                ("activity_a", .str "A"), ("activity_b", .str "B"),
                ("run_id", .str "r1")] }

set_option maxRecDepth 8000 in
/-- C4: evidence that the code contradicts the claim.  The diagnostic query
generated by `ActivityDirectlyFollowsNorm.generate_diagnostic_query`
(backend.py line 508: the f-string interpolates `not forbidden` directly
after a dollar sign) references the parameter `$True` — Python's `repr` of
`not forbidden` — which the returned parameter map never binds, so the
query/parameter pair is not executable and the store rejects it before any
`complies` value can be recorded. -/
theorem C4_unbound_polarity_parameter :
    paramRefs (exceptQueryText
        (ActivityDirectlyFollowsNorm.generate_diagnostic_query CONFIG c4Params))
      = ["activity_a", "activity_b", "True", "norm_id", "run_id"]
    ∧ (exceptQueryParams
        (ActivityDirectlyFollowsNorm.generate_diagnostic_query CONFIG c4Params)).lookup
        "True" = none
    ∧ allParamsBound
        (exceptQueryText
          (ActivityDirectlyFollowsNorm.generate_diagnostic_query CONFIG c4Params))
        (exceptQueryParams
          (ActivityDirectlyFollowsNorm.generate_diagnostic_query CONFIG c4Params))
      = false := ⟨rfl, rfl, rfl⟩

/-! ## Claim C5 -/

/-- Extract the clause text of a filter-clause compilation. -/
def clauseOf (r : Except String (String × List (String × Value))) : String :=
  match r with
  | .ok (c, _) => c
  | .error e => e

/-- A `node`-storage execution filter with a supported operator. -/
def c5Filter : FilterData :=
  { property_name := some "score", property_operator := some "==",
    property_value := some (.int 5), attributeStorage := some "node" }

/-- C5 counterexample: for a `node`-storage execution filter the filter
compiler emits a strict `MATCH` traversal (backend.py line 257, source
comment "strict filtering"), not the optional match the claim asserts: the
emitted clause starts with `MATCH (ev_a)` and not with `OPTIONAL`. -/
theorem C5_node_filter_emits_strict_match :
    strStarts (clauseOf (ProcessNorm.build_filter_clause "ev_a" [c5Filter]))
      "OPTIONAL" = false
    ∧ strStarts (clauseOf (ProcessNorm.build_filter_clause "ev_a" [c5Filter]))
      "MATCH (ev_a)" = true := ⟨rfl, rfl⟩

/-- C5 (amended): only *grouping* descriptors with storage strategy `node`
get an `OPTIONAL MATCH` traversal (aggregation template, line 314-315);
`node`-storage *filter* descriptors get a strict `MATCH` that excludes
subjects lacking the attribute node (line 257). -/
theorem C5_node_storage_match_fragments :
    (∀ (node_alias : String) (i : Nat) (pn : String),
      (filterAttrMatch node_alias i pn).optionalM = false
      ∧ ∃ r, (filterAttrMatch node_alias i pn).render = "MATCH (" ++ r)
    ∧ (∀ (config : Config) (galias : String) (k : Nat) (props : List GroupingProp)
        (pr : Option AttrMatch × CExpr) (m : AttrMatch),
        pr ∈ aggPartsAux config galias k props → pr.1 = some m →
        m.optionalM = true ∧ ∃ r, m.render = "OPTIONAL MATCH (" ++ r) := by
  constructor
  · intro node_alias i pn
    refine ⟨rfl, ⟨node_alias ++ ")-[:`" ++ cfgetD CONFIG "attribute_rel_name" "HAS_ATTRIBUTE"
      ++ "`]->(" ++ ("attr_" ++ toString i) ++ ":`"
      ++ cfgetD CONFIG "attributeNodeLabel" "Attribute" ++ "` \x7b `"
      ++ cfgetD CONFIG "attribute_name_property" "name" ++ "`: \x27" ++ pn
      ++ "\x27 \x7d)", ?_⟩⟩
    simp [filterAttrMatch, AttrMatch.render, String.append_assoc]
  · intro config galias k props
    induction props generalizing k with
    | nil => intro pr m hpr; simp [aggPartsAux] at hpr
    | cons p rest ih =>
      intro pr m hpr hm
      rw [aggPartsAux] at hpr
      rcases List.mem_cons.mp hpr with he | ht
      · by_cases hs : p.attributeStorage.getD "property" = "node"
        · rw [if_pos hs] at he
          subst he
          simp only at hm
          cases hm
          refine ⟨rfl, ⟨galias ++ ")-[:`" ++ cfgetD config "attribute_rel_name" "HAS_ATTRIBUTE"
            ++ "`]->(" ++ ("attr_" ++ toString k) ++ ":`"
            ++ cfgetD config "attributeNodeLabel" "Attribute" ++ "` \x7b `"
            ++ cfgetD config "attribute_name_property" "name" ++ "`: \x27" ++ p.name
            ++ "\x27 \x7d)", ?_⟩⟩
          simp [AttrMatch.render, String.append_assoc]
        · rw [if_neg hs] at he
          subst he
          simp at hm
      · exact ih (k + 1) pr m ht hm

/-- The attribute match fragment the aggregation template builds for the C5
witness grouping property. -/
def c5AggM : AttrMatch :=
  { optionalM := true, srcAlias := "n", rel := "HAS_ATTRIBUTE",
    label := "Attribute", nameProp := "name", nameValue := "region",
    dstAlias := "attr_0" }

/-- Witness for C5 (amended) at concrete inputs. -/
theorem C5_node_storage_match_fragments_witness :
    ((filterAttrMatch "ev_a" 0 "score").optionalM = false
     ∧ ∃ r, (filterAttrMatch "ev_a" 0 "score").render = "MATCH (" ++ r)
    ∧ (c5AggM.optionalM = true ∧ ∃ r, c5AggM.render = "OPTIONAL MATCH (" ++ r) :=
  ⟨C5_node_storage_match_fragments.1 "ev_a" 0 "score",
   C5_node_storage_match_fragments.2 CONFIG "n" 0
     [{ name := "region", attributeStorage := some "node" }]
     (some c5AggM, CExpr.coalesce (.toStr (.propRead "attr_0" "value")) (.lit "N/A"))
     c5AggM (by decide) rfl⟩

/-! ## Claim C6 -/

/-- A datetime `between` execution filter with only one bound supplied. -/
def c6Filter : FilterData :=
  { property_name := some "time", property_operator := some "between",
    property_value := some (.str "2024-01-01T00:00:00"),
    property_data_type := some "datetime" }

/-- C6 counterexample: a `between` filter with a single bound does not
compile to "no predicate" — the `filter_data['property_value_end']` access on
backend.py line 214 raises a `KeyError` that escapes
`_build_single_filter_expression`. -/
theorem C6_between_single_bound_raises :
    ProcessNorm.build_single_filter_expression "ev_a" c6Filter "exec_filter_0"
      = .error "property_value_end" := rfl

/-- C6 (amended): a datetime `between` filter with only one bound raises a
`KeyError` for `property_value_end` that escapes the filter compiler — both
`_build_single_filter_expression` and the whole `_build_filter_clause` over
any filter list starting with it fail with that error (it is then caught at
the per-norm boundary of `parse_and_run_norms`, skipping the entire norm),
rather than softly contributing no predicate. -/
theorem C6_between_single_bound_escapes
    (f : FilterData) (rest : List FilterData) (na pfx : String)
    (pn : String) (v : Value)
    (h1 : f.property_data_type = some "datetime")
    (h2 : f.property_operator = some "between")
    (h3 : f.property_value_end = none)
    (h4 : f.property_name = some pn)
    (h5 : f.property_value = some v)
    (h6 : f.attributeStorage.getD "property" ≠ "node") :
    ProcessNorm.build_single_filter_expression na f pfx = .error "property_value_end"
    ∧ ProcessNorm.build_filter_clause na (f :: rest) = .error "property_value_end" := by
  have hsingle : ∀ (na2 pfx2 : String),
      ProcessNorm.build_single_filter_expression na2 f pfx2
        = .error "property_value_end" := by
    intro na2 pfx2
    simp [ProcessNorm.build_single_filter_expression, h1, h2, h3, h4, h5, pyGet,
      bind, Except.bind]
  have haux : buildFilterClauseAux na 0 (f :: rest) = .error "property_value_end" := by
    rw [buildFilterClauseAux]
    simp [h2, h4, h5, h6, hsingle, pyGet, bind, Except.bind, pure, Except.pure]
  refine ⟨hsingle na pfx, ?_⟩
  rw [ProcessNorm.build_filter_clause]
  simp [haux, bind, Except.bind, pure, Except.pure]

/-- Witness for C6 (amended) at the concrete single-bound filter. -/
theorem C6_between_single_bound_escapes_witness :
    ProcessNorm.build_single_filter_expression "ev_a" c6Filter "exec_filter_0"
      = .error "property_value_end"
    ∧ ProcessNorm.build_filter_clause "ev_a"
        [c6Filter, { property_name := some "type", property_operator := some "==",
                     property_value := some (.str "Order") }]
      = .error "property_value_end" :=
  C6_between_single_bound_escapes c6Filter
    [{ property_name := some "type", property_operator := some "==",
       property_value := some (.str "Order") }]
    "ev_a" "exec_filter_0" "time" (.str "2024-01-01T00:00:00")
    rfl rfl rfl rfl rfl (by decide)

/-! ## Claim C7 -/

/-- A `node`-storage filter whose operator (`before`) is unsupported by the
node-storage operator map. -/
def c7NodeBad : FilterData :=
  { property_name := some "ship_date", property_operator := some "before",
    property_value := some (.str "2024-01-01"), attributeStorage := some "node" }

/-- An ordinary supported inline filter. -/
def c7Good : FilterData :=
  { property_name := some "type", property_operator := some "==",
    property_value := some (.str "Order") }

/-- C7 counterexample: an unsupported `node`-storage filter is *not* dropped
without a trace — its strict attribute `MATCH` fragment (appended on
backend.py line 257 before the operator is checked) survives into the
compiled clause whenever another filter contributes a predicate. -/
theorem C7_unsupported_node_filter_leaves_match_fragment :
    strContains (clauseOf (ProcessNorm.build_filter_clause "ev_a" [c7NodeBad, c7Good]))
      "MATCH (ev_a)-[:`HAS_ATTRIBUTE`]->(attr_0" = true := rfl

/-- C7 (amended): a filter with an unsupported operator/data-type combination
compiles to no predicate conjunct and no parameter binding, without error;
for inline storage it contributes nothing at all, but a `node`-storage
unsupported filter still contributes its strict match fragment when some
other filter yields a predicate (when no filter yields a predicate the whole
clause collapses to empty). -/
theorem C7_unsupported_combo_drops_predicate
    (f : FilterData) (na pfx : String) (pn op : String) (v : Value)
    (h1 : f.property_name = some pn)
    (h2 : f.property_operator = some op)
    (h3 : f.property_value = some v)
    (h4 : if f.property_data_type.getD "string" = "datetime"
          then op ≠ "between" ∧ op ≠ "before" ∧ op ≠ "after"
          else op_map_general op = none) :
    ProcessNorm.build_single_filter_expression na f pfx = .ok ("", [])
    ∧ ProcessNorm.build_filter_clause "ev_a" [c7NodeBad, c7Good]
      = .ok ("MATCH (ev_a)-[:`HAS_ATTRIBUTE`]->(attr_0:`Attribute` \x7b `name`: \x27ship_date\x27 \x7d)\nWHERE (ev_a.`type` IS NOT NULL AND ev_a.`type` = $exec_filter_1)",
             [("exec_filter_1", .str "Order")])
    ∧ ProcessNorm.build_filter_clause "ev_a" [c7NodeBad] = .ok ("", []) := by
  refine ⟨?_, rfl, rfl⟩
  by_cases hdt : f.property_data_type.getD "string" = "datetime"
  · rw [if_pos hdt] at h4
    simp [ProcessNorm.build_single_filter_expression, h1, h2, h3, hdt,
      h4.1, h4.2.1, h4.2.2, pyGet, bind, Except.bind, pure, Except.pure]
  · rw [if_neg hdt] at h4
    simp [ProcessNorm.build_single_filter_expression, h1, h2, h3, hdt, h4,
      pyGet, bind, Except.bind, pure, Except.pure]

/-- Witness for C7 (amended): an inline filter with a `before` operator on a
string field (an unsupported combination) compiles to the empty predicate. -/
theorem C7_unsupported_combo_drops_predicate_witness :
    ProcessNorm.build_single_filter_expression "ev_a"
      { property_name := some "x", property_operator := some "before",
        property_value := some (.str "2024") } "exec_filter_0" = .ok ("", [])
    ∧ ProcessNorm.build_filter_clause "ev_a" [c7NodeBad, c7Good]
      = .ok ("MATCH (ev_a)-[:`HAS_ATTRIBUTE`]->(attr_0:`Attribute` \x7b `name`: \x27ship_date\x27 \x7d)\nWHERE (ev_a.`type` IS NOT NULL AND ev_a.`type` = $exec_filter_1)",
             [("exec_filter_1", .str "Order")])
    ∧ ProcessNorm.build_filter_clause "ev_a" [c7NodeBad] = .ok ("", []) :=
  C7_unsupported_combo_drops_predicate
    { property_name := some "x", property_operator := some "before",
      property_value := some (.str "2024") }
    "ev_a" "exec_filter_0" "x" "before" (.str "2024") rfl rfl rfl (by decide)

/-! ## Claim C8 -/

/-- Evaluating the generated grouping-key components (each under its own
fragment's resolver) gives, per spec position, the resolved attribute value
coerced to string with `"N/A"` substituted when absent. -/
theorem aggPartsAux_evalOn (config : Config) (galias : String) (s : AggSubject)
    (props : List GroupingProp) :
    ∀ k : Nat,
      (aggPartsAux config galias k props).map (fun pr =>
        match pr.2.evalKey (partResolver galias
            (cfgetD config "attribute_value_property" "value") s pr.1) with
        | some v => v.toCypherString
        | none => "null")
      = props.map (fun p =>
          if p.attributeStorage.getD "property" = "node"
          then ((s.attrValue p.name).map Value.toCypherString).getD "N/A"
          else ((s.inlineProps p.name).map Value.toCypherString).getD "N/A") := by
  induction props with
  | nil => intro k; rfl
  | cons p rest ih =>
    intro k
    rw [aggPartsAux]
    by_cases hs : p.attributeStorage.getD "property" = "node"
    · rw [if_pos hs]
      simp only [List.map_cons, ih (k + 1), hs, if_pos]
      congr 1
      cases hv : s.attrValue p.name <;>
        simp [CExpr.evalKey, partResolver, Value.toCypherString, hv]
    · rw [if_neg hs]
      simp only [List.map_cons, ih (k + 1), if_neg hs]
      congr 1
      cases hv : s.inlineProps p.name <;>
        simp [CExpr.evalKey, partResolver, Value.toCypherString, hv]

/-- C8: the grouping-key compiler of
`ProcessNorm._generate_aggregation_query_template` yields the single constant
key `"Overall"` for an empty spec list (and the query text returns the
literal `'Overall'`), and for a non-empty list an ordered tuple preserving
input order whose components are the resolved attribute values coerced to
string with `"N/A"` substituted when the attribute is absent. -/
theorem C8_grouping_key_compiler
    (config : Config) (mc galias : String) (props : List GroupingProp)
    (exprs : List String) (s : AggSubject) :
    (props = [] →
      ((ProcessNorm.generate_aggregation_query_template config mc props galias
          exprs).key.evalOn galias
          (cfgetD config "attribute_value_property" "value") s = .single "Overall"
       ∧ ∃ pre post,
           (ProcessNorm.generate_aggregation_query_template config mc props galias
             exprs).text
             = pre ++ "\n            RETURN \x27Overall\x27 as grouping_key,\n                   "
               ++ post))
    ∧ (props ≠ [] →
      (ProcessNorm.generate_aggregation_query_template config mc props galias
          exprs).key.evalOn galias
          (cfgetD config "attribute_value_property" "value") s
        = .tuple (props.map (fun p =>
            if p.attributeStorage.getD "property" = "node"
            then ((s.attrValue p.name).map Value.toCypherString).getD "N/A"
            else ((s.inlineProps p.name).map Value.toCypherString).getD "N/A"))) := by
  constructor
  · intro h
    subst h
    constructor
    · rfl
    · refine ⟨"\n            " ++ mc,
        String.intercalate "," exprs ++ "\n            ", ?_⟩
      simp [ProcessNorm.generate_aggregation_query_template, String.append_assoc]
  · intro h
    rw [ProcessNorm.generate_aggregation_query_template, if_neg h]
    show AggKey.evalOn galias _ s (.parts (aggPartsAux config galias 0 props)) = _
    rw [AggKey.evalOn]
    rw [aggPartsAux_evalOn config galias s props 0]

/-- Concrete subject and specs witnessing C8. -/
def c8Subject : AggSubject :=
  { inlineProps := fun p => if p = "type" then some (.str "Order") else none
    attrValue := fun n => if n = "region" then some (.str "EU") else none }

def c8Props : List GroupingProp :=
  [{ name := "region", attributeStorage := some "node" },
   { name := "type" },
   { name := "missing" }]

set_option maxRecDepth 8000 in
/-- Witness for C8: the empty spec list yields the `"Overall"` key; the
three-spec list yields the ordered tuple `["EU", "Order", "N/A"]`. -/
theorem C8_grouping_key_compiler_witness :
    ((ProcessNorm.generate_aggregation_query_template CONFIG "MATCH (x)" [] "n"
        ["count(diag) as total_nodes"]).key.evalOn "n"
        (cfgetD CONFIG "attribute_value_property" "value") c8Subject
      = .single "Overall")
    ∧ ((ProcessNorm.generate_aggregation_query_template CONFIG "MATCH (x)" c8Props "n"
        ["count(diag) as total_nodes"]).key.evalOn "n"
        (cfgetD CONFIG "attribute_value_property" "value") c8Subject
      = .tuple ["EU", "Order", "N/A"]) :=
  ⟨((C8_grouping_key_compiler CONFIG "MATCH (x)" "n" [] ["count(diag) as total_nodes"]
      c8Subject).1 rfl).1,
   ((C8_grouping_key_compiler CONFIG "MATCH (x)" "n" c8Props
      ["count(diag) as total_nodes"] c8Subject).2 (by decide)).trans (by rfl)⟩

/-! ## Claim C9 -/

/-- The request config override used as C9's counterexample input. -/
def c9Override : Config :=
  [("analysis_run_node_label", "AuditRun"), ("event_node_label", "Evt")]

set_option maxRecDepth 8000 in
/-- C9 counterexample: with a request that overrides
`analysis_run_node_label` to `AuditRun`, the AnalysisRun creation and
status-update queries still use the hard-coded default label `AnalysisRun`
(they are built from the module-level `CONFIG` on backend.py lines 745, 747
and 776, which the override — applied only to the copied per-norm config on
lines 769/638-639 — never touches). -/
theorem C9_run_lifecycle_queries_ignore_overrides :
    strContains (run_analysis_from_request c9Override).createRun "AnalysisRun" = true
    ∧ strContains (run_analysis_from_request c9Override).createRun "AuditRun" = false
    ∧ strContains (run_analysis_from_request c9Override).updateStatus "AnalysisRun" = true
    ∧ strContains (run_analysis_from_request c9Override).updateStatus "AuditRun" = false :=
  ⟨rfl, rfl, rfl, rfl⟩

set_option maxRecDepth 8000 in
/-- C9 (amended): the diagnostic/aggregation queries generated during norm
evaluation use the overridden config (e.g. an overridden event label appears
in the ActivityDirectlyFollows diagnostic query and the default label does
not), while the AnalysisRun creation and status-update queries are built from
the module defaults and are the same for every request override. -/
theorem C9_norm_queries_use_overridden_config :
    (∀ rc : Config,
      (run_analysis_from_request rc).createRun
          = (run_analysis_from_request []).createRun
      ∧ (run_analysis_from_request rc).updateStatus
          = (run_analysis_from_request []).updateStatus)
    ∧ cfget (run_analysis_from_request c9Override).normConfig "event_node_label" = "Evt"
    ∧ strContains (ActivityDirectlyFollowsNorm.diagnosticQueryText
        (run_analysis_from_request c9Override).normConfig "" false)
        "MATCH (ev_a:Evt " = true
    ∧ strContains (ActivityDirectlyFollowsNorm.diagnosticQueryText
        (run_analysis_from_request c9Override).normConfig "" false)
        "MATCH (ev_a:Event " = false :=
  ⟨fun _ => ⟨rfl, rfl⟩, rfl, rfl, rfl⟩

/-! ## Claim C10 -/

/-- C10: for the two property-value norm types, the storage strategy used by
the property check is the `attributeStorage` of the first element of the
norm's `filters` list when that list is present and non-empty, and the
inline default `"property"` otherwise (given that the norm definition itself
carries no top-level `attributeStorage` key — the check has no dedicated
storage parameter of its own). -/
theorem C10_storage_from_first_filter
    (nd : NormData)
    (h1 : nd.attributeStorage = none)
    (h2 : nd.norm_type = some "EventPropertyValueNorm"
          ∨ nd.norm_type = some "EntityPropertyValueNorm") :
    effectiveAttributeStorage nd
      = match nd.filters with
        | some (f :: _) => f.attributeStorage.getD "property"
        | _ => "property" := by
  rw [effectiveAttributeStorage, normParamsAttributeStorage, if_pos h2]
  cases hf : nd.filters with
  | none => simp [h1]
  | some l =>
    cases l with
    | nil => simp [h1]
    | cons f t => simp

/-- Witness for C10: a norm with a `node`-storage first filter checks the
property via node storage; a norm without filters defaults to inline. -/
theorem C10_storage_from_first_filter_witness :
    effectiveAttributeStorage
      { norm_type := some "EntityPropertyValueNorm", norm_id := some "n1",
        description := some "d",
        filters := some [{ property_name := some "amount",
                           attributeStorage := some "node" }] }
      = "node"
    ∧ effectiveAttributeStorage
      { norm_type := some "EventPropertyValueNorm", norm_id := some "n2",
        description := some "d" }
      = "property" :=
  ⟨(C10_storage_from_first_filter
      { norm_type := some "EntityPropertyValueNorm", norm_id := some "n1",
        description := some "d",
        filters := some [{ property_name := some "amount",
                           attributeStorage := some "node" }] }
      rfl (Or.inr rfl)).trans (by rfl),
   (C10_storage_from_first_filter
      { norm_type := some "EventPropertyValueNorm", norm_id := some "n2",
        description := some "d" }
      rfl (Or.inl rfl)).trans (by rfl)⟩

end OCWise
